import Mathlib

/-!
Shallow embedding of the sequence-diagram core of the
Front-back-diagram-generator repository (TypeScript), together with proofs
about it.  The embedding follows the source files:

* `src/types/diagram.ts` — data model and layout constants;
* the sequence-diagram canvas component — geometry, mutators
  (`handleAddLifeline`, `handleDeleteLifeline`, `handleMoveLifelineLeft`,
  `handleMoveLifelineRight`, message handlers), the automatic activation
  inference (`activations` useMemo), and the block machinery;
* `src/lib/BumlBuilder.ts` (v1.2) — builder, director, codec
  (`serializeToBuml`, `parseBumlFile`, `buildDiagramFromBuml`);
* the group utilities — `calculateGroupBounds`.

JavaScript numbers are modelled as `ℚ` where geometry divides (`/ 2`) or
subtracts, and as `Nat` for the dense `order` ranks.  The ambient clock that
`new Date().toISOString()` reads is made an explicit `now : String`
parameter.  JSON text is modelled at the value level by an inductive `Json`
type; the outcome of `JSON.parse` is an `Option Json` (`none` = malformed
text), and `JSON.stringify`/`JSON.parse` round-tripping of a well-formed
document is the identity at this level.
-/

namespace Buml

/-! ## Data model (`src/types/diagram.ts`) -/

inductive MessageType where
  | sync
  /-- Source literal `'return'` (a keyword in Lean, hence the short name). -/
  | ret
deriving DecidableEq, BEq

structure Lifeline where
  id : String
  name : String
  color : String
  order : Nat
deriving DecidableEq

structure Message where
  id : String
  fromLifelineId : String
  toLifelineId : String
  label : String
  description : Option String
  type : MessageType
  order : Nat
deriving DecidableEq

structure Activation where
  id : String
  lifelineId : String
  startMessageOrder : Nat
  endMessageOrder : Nat
deriving DecidableEq

structure ActivationBlockData where
  isActive : Bool
  text : Option String
deriving DecidableEq

structure Group where
  id : String
  name : String
  color : String
  lifelineIds : List String
deriving DecidableEq

structure SequenceDiagramState where
  lifelines : List Lifeline
  messages : List Message
  activations : List Activation
  groups : List Group
deriving DecidableEq

def DEFAULT_COLORS : List String :=
  ["#3B82F6", "#10B981", "#F59E0B", "#EF4444", "#8B5CF6", "#EC4899", "#14B8A6", "#6366F1"]

def LIFELINE_HEADER_WIDTH : ℚ := 120
def LIFELINE_HEADER_HEIGHT : ℚ := 60
def LIFELINE_SPACING : ℚ := 180
def LIFELINE_START_X : ℚ := 100
def LIFELINE_START_Y : ℚ := 80
def MESSAGE_SPACING : ℚ := 60
def ACTIVATION_WIDTH : ℚ := 16

/-! ## Geometry engine (`MessageArrow.tsx`, canvas component) -/

def getLifelineX (lifeline : Lifeline) : ℚ :=
  LIFELINE_START_X + lifeline.order * LIFELINE_SPACING + LIFELINE_HEADER_WIDTH / 2

def getMessageY (order : Nat) : ℚ :=
  LIFELINE_START_Y + LIFELINE_HEADER_HEIGHT + 30 + order * MESSAGE_SPACING

def canvasWidth (numLifelines : Nat) : ℚ :=
  max 800 (LIFELINE_START_X + numLifelines * LIFELINE_SPACING + 100)

def canvasHeight (numMessages : Nat) : ℚ :=
  max 600
    (LIFELINE_START_Y + LIFELINE_HEADER_HEIGHT + 50 + (numMessages + 1) * MESSAGE_SPACING + 100)

/-! ## Group bounds calculator (group utilities file) -/

def GROUP_PADDING : ℚ := 20
def GROUP_HEADER_HEIGHT : ℚ := 24

structure GroupBounds where
  x : ℚ
  y : ℚ
  width : ℚ
  height : ℚ
deriving DecidableEq

/-- `calculateGroupBounds(group, lifelines, canvasHeight)`.  The source sorts
the orders of the resolved lifelines and reads the first and last entry;
these are their minimum and maximum, written here with `List.min?` /
`List.max?`. -/
def calculateGroupBounds (group : Group) (lifelines : List Lifeline)
    (canvasHeight : ℚ) : Option GroupBounds :=
  let groupLifelines := lifelines.filter (fun l => group.lifelineIds.contains l.id)
  if groupLifelines.isEmpty then none
  else
    let orders := groupLifelines.map (·.order)
    let minOrder : Nat := (orders.min?).getD 0
    let maxOrder : Nat := (orders.max?).getD 0
    let x := LIFELINE_START_X + minOrder * LIFELINE_SPACING - GROUP_PADDING
    let y := LIFELINE_START_Y - GROUP_HEADER_HEIGHT - GROUP_PADDING / 2
    let width := ((maxOrder : ℚ) - minOrder + 1) * LIFELINE_SPACING - LIFELINE_SPACING
      + LIFELINE_HEADER_WIDTH + GROUP_PADDING * 2
    let height := canvasHeight - y - GROUP_PADDING
    some { x := x, y := y, width := width, height := height }

/-! ## Activation inference engine (`activations` useMemo)

For each lifeline id touched by a message, the source keeps a JS array
`pendingIncoming` used as a stack (push/pop at the end).  The stack is
modelled head-first (`cons` = push); the final `forEach` over the leftover
array therefore corresponds to folding over the reversed list. -/

def touchedLifelineIds (messages : List Message) : List String :=
  messages.foldl
    (fun acc m =>
      let acc := if acc.contains m.fromLifelineId then acc else acc ++ [m.fromLifelineId]
      if acc.contains m.toLifelineId then acc else acc ++ [m.toLifelineId])
    []

/-- One step of the per-lifeline scan: state is `(pendingIncoming, emitted)`. -/
def stepActivation (lifelineId : String) (st : List Nat × List Activation)
    (msg : Message) : List Nat × List Activation :=
  if msg.toLifelineId == lifelineId && msg.type == MessageType.sync then
    (msg.order :: st.1, st.2)
  else if msg.fromLifelineId == lifelineId && msg.type == MessageType.ret then
    match st.1 with
    | [] => st
    | startOrder :: rest =>
      (rest, st.2 ++ [{
        id := "activation-" ++ lifelineId ++ "-" ++ toString startOrder ++ "-"
          ++ toString msg.order,
        lifelineId := lifelineId,
        startMessageOrder := startOrder,
        endMessageOrder := msg.order }])
  else st

/-- Intervals produced for one lifeline id: the matched pairs from the scan,
followed by one open interval per leftover pending order, ending at the
last touching message order (`reduce(Math.max, startOrder)`). -/
def lifelineActivations (messages : List Message) (lifelineId : String) : List Activation :=
  let scanned := messages.foldl (stepActivation lifelineId) ([], [])
  scanned.2 ++ scanned.1.reverse.map (fun startOrder =>
    let lastMsgOrder :=
      (messages.filter
        (fun m => m.fromLifelineId == lifelineId || m.toLifelineId == lifelineId)).foldl
        (fun mx m => max mx m.order) startOrder
    { id := "activation-" ++ lifelineId ++ "-" ++ toString startOrder ++ "-"
        ++ toString lastMsgOrder,
      lifelineId := lifelineId,
      startMessageOrder := startOrder,
      endMessageOrder := lastMsgOrder })

/-- The `activations` useMemo: all lifeline ids touched by a message, in Set
insertion order, each contributing its intervals to a shared list. -/
def activations (messages : List Message) : List Activation :=
  (touchedLifelineIds messages).foldl
    (fun acc lifelineId => acc ++ lifelineActivations messages lifelineId) []

/-- C2 example messages. -/
def c2Messages : List Message :=
  [ { id := "m0", fromLifelineId := "A", toLifelineId := "B", label := "request()",
      description := none, type := MessageType.sync, order := 0 },
    { id := "m1", fromLifelineId := "B", toLifelineId := "C", label := "request()",
      description := none, type := MessageType.sync, order := 1 },
    { id := "m2", fromLifelineId := "C", toLifelineId := "B", label := "response",
      description := none, type := MessageType.ret, order := 2 },
    { id := "m3", fromLifelineId := "B", toLifelineId := "A", label := "response",
      description := none, type := MessageType.ret, order := 3 } ]

/-- C5 example messages. -/
def c5Messages : List Message :=
  [ { id := "m0", fromLifelineId := "A", toLifelineId := "B", label := "request()",
      description := none, type := MessageType.sync, order := 0 },
    { id := "m1", fromLifelineId := "B", toLifelineId := "B", label := "request()",
      description := none, type := MessageType.sync, order := 1 } ]

/-! ## Diagram model mutators (canvas component, `part_005`)

The component state relevant to the ordering invariants: the lifeline list,
the message list, the activated-block key set (a JS `Set`, modelled as a
list of keys) and the id counter.  `generateId` in the source is
`prefix-Date.now()-counter-random`; the timestamp and random suffix are
ambient noise and are omitted, the incrementing counter that makes ids
unique is kept. -/

structure DiagramState where
  lifelines : List Lifeline
  messages : List Message
  activatedBlocks : List String
  nextId : Nat
deriving DecidableEq

def generateId (pre : String) (counter : Nat) : String :=
  pre ++ "-" ++ toString counter

/-- `handleAddLifeline`: append with `order = lifelines.length`. -/
def handleAddLifeline (s : DiagramState) (color : String) : DiagramState :=
  { s with
    lifelines := s.lifelines ++
      [{ id := generateId "lifeline" s.nextId, name := "Actor", color := color,
         order := s.lifelines.length }],
    nextId := s.nextId + 1 }

/-- `handleDeleteLifeline`: filter the lifeline out and reindex the rest;
filter out messages that reference it (the source does NOT reindex the
surviving messages); drop activated-block keys with the deleted id as
prefix. -/
def handleDeleteLifeline (s : DiagramState) (id : String) : DiagramState :=
  { s with
    lifelines :=
      ((s.lifelines.filter (fun l => l.id != id)).enum.map
        (fun p => { p.2 with order := p.1 })),
    messages :=
      s.messages.filter (fun m => m.fromLifelineId != id && m.toLifelineId != id),
    activatedBlocks :=
      s.activatedBlocks.filter (fun key => !(key.startsWith (id ++ "-"))) }

/-- `handleMoveLifelineLeft`: swap `order` with the lifeline at `order - 1`;
no-op when the id is unknown or the lifeline is leftmost. -/
def handleMoveLifelineLeft (lifelines : List Lifeline) (id : String) : List Lifeline :=
  match lifelines.find? (fun l => l.id == id) with
  | none => lifelines
  | some lifeline =>
    if lifeline.order == 0 then lifelines
    else lifelines.map (fun l =>
      if l.id == id then { l with order := l.order - 1 }
      else if l.order == lifeline.order - 1 then { l with order := l.order + 1 }
      else l)

/-- `handleMoveLifelineRight`: swap `order` with the lifeline at `order + 1`;
no-op when the id is unknown or the lifeline is rightmost. -/
def handleMoveLifelineRight (lifelines : List Lifeline) (id : String) : List Lifeline :=
  match lifelines.find? (fun l => l.id == id) with
  | none => lifelines
  | some lifeline =>
    if lifeline.order == lifelines.length - 1 then lifelines
    else lifelines.map (fun l =>
      if l.id == id then { l with order := l.order + 1 }
      else if l.order == lifeline.order + 1 then { l with order := l.order - 1 }
      else l)

/-- The message-creation branch of `handleSelectLifeline`: a message is only
created when the destination differs from the stored source
(`messageFromLifeline !== id`); it is appended with `order = messages.length`
and a type-dependent default label. -/
def handleCreateMessage (s : DiagramState) (fromId toId : String)
    (t : MessageType) : DiagramState :=
  if fromId == toId then s
  else
    { s with
      messages := s.messages ++
        [{ id := generateId "message" s.nextId, fromLifelineId := fromId,
           toLifelineId := toId,
           label := if t == MessageType.sync then "request()" else "response",
           description := none, type := t, order := s.messages.length }],
      nextId := s.nextId + 1 }

/-- `handleUpdateMessage`: replace the message with the same id.  Callers
(`MessageArrow`) always pass the stored message with only `label`,
`description` or `type` changed, which is how the spec describes
`updateMessage(id, patch)`. -/
def handleUpdateMessage (s : DiagramState) (id : String) (label : String)
    (descr : Option String) (t : MessageType) : DiagramState :=
  { s with
    messages := s.messages.map (fun m =>
      if m.id == id then { m with label := label, description := descr, type := t }
      else m) }

/-- `handleDeleteMessage`: filter the message out, reindex the remaining
messages, and clear all activated blocks. -/
def handleDeleteMessage (s : DiagramState) (id : String) : DiagramState :=
  { s with
    messages :=
      ((s.messages.filter (fun m => m.id != id)).enum.map
        (fun p => { p.2 with order := p.1 })),
    activatedBlocks := [] }

/-- The model mutations named by the spec. -/
inductive Op where
  | addLifeline (color : String)
  | deleteLifeline (id : String)
  | moveLifelineLeft (id : String)
  | moveLifelineRight (id : String)
  | addMessage (fromId toId : String) (t : MessageType)
  | updateMessage (id : String) (label : String) (descr : Option String) (t : MessageType)
  | deleteMessage (id : String)

def step (s : DiagramState) (op : Op) : DiagramState :=
  match op with
  | .addLifeline color => handleAddLifeline s color
  | .deleteLifeline id => handleDeleteLifeline s id
  | .moveLifelineLeft id => { s with lifelines := handleMoveLifelineLeft s.lifelines id }
  | .moveLifelineRight id => { s with lifelines := handleMoveLifelineRight s.lifelines id }
  | .addMessage fromId toId t => handleCreateMessage s fromId toId t
  | .updateMessage id label descr t => handleUpdateMessage s id label descr t
  | .deleteMessage id => handleDeleteMessage s id

def applyOps (s : DiagramState) (ops : List Op) : DiagramState :=
  ops.foldl step s

/-- `INITIAL_LIFELINES`: Front/Back/AI with the ids produced by the first
three `generateId` calls (the module counter runs 1, 2, 3). -/
def initialState : DiagramState :=
  { lifelines :=
      [ { id := generateId "lifeline" 1, name := "Front", color := DEFAULT_COLORS[0]!, order := 0 },
        { id := generateId "lifeline" 2, name := "Back", color := DEFAULT_COLORS[1]!, order := 1 },
        { id := generateId "lifeline" 3, name := "AI", color := DEFAULT_COLORS[4]!, order := 2 } ],
    messages := [],
    activatedBlocks := [],
    nextId := 4 }

/-- The mutation sequence used for claim C1: draw a sync message
Front→Back (order 0) and a sync message Back→AI (order 1), then delete the
Front lifeline. -/
def c1Ops : List Op :=
  [ Op.addMessage "lifeline-1" "lifeline-2" MessageType.sync,
    Op.addMessage "lifeline-2" "lifeline-3" MessageType.sync,
    Op.deleteLifeline "lifeline-1" ]

/-! ## JSON values

JSON parsed by `JSON.parse` is one of null, boolean, number, string, array
or object.  `undefined` models the JavaScript `undefined` produced by a member
access on a missing key; `JSON.parse` itself never yields it. -/

inductive Json where
  | null
  | undefined
  | bool (b : Bool)
  | num (n : Int)
  | str (s : String)
  | arr (elems : List Json)
  | obj (fields : List (String × Json))

def lookupKey : List (String × Json) → String → Option Json
  | [], _ => none
  | kv :: rest, k => if kv.1 == k then some kv.2 else lookupKey rest k

/-- Member access `j[k]` on a receiver that is known not to be null or
undefined (on other primitives and arrays a named member reads as
`undefined`). -/
def jsGetD (j : Json) (k : String) : Json :=
  match j with
  | .obj kvs => (lookupKey kvs k).getD .undefined
  | _ => .undefined

/-- Member access as executed by JavaScript: reading a property of `null` or
`undefined` throws a `TypeError`. -/
def jsMember (j : Json) (k : String) : Except String Json :=
  match j with
  | .null => .error "TypeError: cannot read properties of null"
  | .undefined => .error "TypeError: cannot read properties of undefined"
  | _ => .ok (jsGetD j k)

/-- JavaScript truthiness of a JSON value. -/
def truthy : Json → Bool
  | .null => false
  | .undefined => false
  | .bool b => b
  | .num n => n != 0
  | .str s => s != ""
  | .arr _ => true
  | .obj _ => true

def Json.isArr : Json → Bool
  | .arr _ => true
  | _ => false

/-- `typeof x === 'object'` (true for objects, arrays and null). -/
def isObjectType : Json → Bool
  | .obj _ => true
  | .arr _ => true
  | .null => true
  | _ => false

/-! ## Buml codec (`src/lib/BumlBuilder.ts`, v1.2) -/

def BUML_VERSION : String := "1.2"

/-- The `diagram` section of a parsed `BumlFileFormat`.  The source casts the
parsed JSON, so the element payloads stay JSON values here. -/
structure BumlDiagramData where
  lifelines : List Json
  messages : List Json
  activations : List Json
  activatedBlocks : List Json
  activatedBlocksData : Json
  groups : List Json

structure BumlFileFormat where
  version : String
  diagram : BumlDiagramData
  metadata : Json

/-- `parseBumlFile` on an already-JSON.parsed value: validates `version`,
`diagram`, `diagram.lifelines` and `diagram.messages`, and defaults the
optional sections.  `now` is the clock reading used for a defaulted
`metadata` section. -/
def parseBumlVal (now : String) (parsed : Json) : Except String BumlFileFormat :=
  match jsMember parsed "version" with
  | .error e => .error e
  | .ok version =>
    match version with
    | .str vs =>
      if vs == "" then .error "Invalid .buml file: missing or invalid version"
      else
        match jsMember parsed "diagram" with
        | .error e => .error e
        | .ok diagram =>
          if !(truthy diagram) then .error "Invalid .buml file: missing diagram data"
          else
            match jsGetD diagram "lifelines" with
            | .arr lifelines =>
              match jsGetD diagram "messages" with
              | .arr messages =>
                let activations := match jsGetD diagram "activations" with
                  | .arr xs => xs
                  | _ => []
                let activatedBlocks := match jsGetD diagram "activatedBlocks" with
                  | .arr xs => xs
                  | _ => []
                let abd := jsGetD diagram "activatedBlocksData"
                let activatedBlocksData :=
                  if !(truthy abd) || !(isObjectType abd) then Json.obj [] else abd
                let groups := match jsGetD diagram "groups" with
                  | .arr xs => xs
                  | _ => []
                let md := jsGetD parsed "metadata"
                let metadata :=
                  if !(truthy md) then
                    Json.obj [("createdAt", .str now), ("updatedAt", .str now)]
                  else md
                .ok { version := vs,
                      diagram := { lifelines := lifelines, messages := messages,
                                   activations := activations,
                                   activatedBlocks := activatedBlocks,
                                   activatedBlocksData := activatedBlocksData,
                                   groups := groups },
                      metadata := metadata }
              | _ => .error "Invalid .buml file: messages must be an array"
            | _ => .error "Invalid .buml file: lifelines must be an array"
    | _ => .error "Invalid .buml file: missing or invalid version"

/-- `parseBumlFile(content)`: `none` models text rejected by `JSON.parse`. -/
def parseBumlFile (now : String) (content : Option Json) : Except String BumlFileFormat :=
  match content with
  | none => .error "Invalid .buml file: malformed JSON"
  | some parsed => parseBumlVal now parsed

/-! ### Builder and director -/

structure BumlBuilder where
  lifelines : List Json
  messages : List Json
  activations : List Json
  activatedBlocks : List Json
  activatedBlocksData : Json
  groups : List Json

/-- The state of the diagram carried by a built `BumlDiagram`. -/
structure BuiltState where
  lifelines : List Json
  messages : List Json
  activations : List Json
  groups : List Json

structure BumlDiagram where
  state : BuiltState
  activatedBlocks : List Json
  activatedBlocksData : Json
  name : Json

def BumlBuilder.reset : BumlBuilder :=
  { lifelines := [], messages := [], activations := [], activatedBlocks := [],
    activatedBlocksData := .obj [], groups := [] }

def BumlBuilder.addLifeline (b : BumlBuilder) (l : Json) : BumlBuilder :=
  { b with lifelines := b.lifelines ++ [l] }

def BumlBuilder.addMessage (b : BumlBuilder) (m : Json) : BumlBuilder :=
  { b with messages := b.messages ++ [m] }

def BumlBuilder.addActivation (b : BumlBuilder) (a : Json) : BumlBuilder :=
  { b with activations := b.activations ++ [a] }

def BumlBuilder.addGroup (b : BumlBuilder) (g : Json) : BumlBuilder :=
  { b with groups := b.groups ++ [g] }

def BumlBuilder.setActivatedBlocks (b : BumlBuilder) (blocks : List Json) : BumlBuilder :=
  { b with activatedBlocks := blocks }

def BumlBuilder.setActivatedBlocksData (b : BumlBuilder) (blocksData : Json) : BumlBuilder :=
  { b with activatedBlocksData := blocksData }

def BumlBuilder.build (b : BumlBuilder) : BumlDiagram :=
  { state := { lifelines := b.lifelines, messages := b.messages,
               activations := b.activations, groups := b.groups },
    activatedBlocks := b.activatedBlocks,
    activatedBlocksData := b.activatedBlocksData,
    name := .undefined }

/-- `BumlDirector.constructFromFile`.  After `parseBumlFile`, `groups` is
always an array and `activatedBlocksData` is always a truthy object, so the
two guarded source branches (`if (fileContent.diagram.groups)` and
`if (fileContent.diagram.activatedBlocksData)`) are always taken. -/
def constructFromFile (fileContent : BumlFileFormat) : BumlDiagram :=
  let b := BumlBuilder.reset
  let b := fileContent.diagram.lifelines.foldl BumlBuilder.addLifeline b
  let b := fileContent.diagram.messages.foldl BumlBuilder.addMessage b
  let b := fileContent.diagram.activations.foldl BumlBuilder.addActivation b
  let b := fileContent.diagram.groups.foldl BumlBuilder.addGroup b
  let b := b.setActivatedBlocks fileContent.diagram.activatedBlocks
  let b := b.setActivatedBlocksData fileContent.diagram.activatedBlocksData
  b.build

/-- `buildDiagramFromBuml`: parse, construct, and copy `metadata?.name`. -/
def buildDiagramFromBuml (now : String) (content : Option Json) :
    Except String BumlDiagram :=
  (parseBumlFile now content).map (fun fileContent =>
    { constructFromFile fileContent with name := jsGetD fileContent.metadata "name" })

/-! ### Serializer

The JSON representation of each in-memory entity, as `JSON.stringify`
produces it (a key whose value is `undefined` is dropped). -/

def MessageType.toJson : MessageType → Json
  | .sync => .str "sync"
  | .ret => .str "return"

def Lifeline.toJson (l : Lifeline) : Json :=
  .obj [("id", .str l.id), ("name", .str l.name), ("color", .str l.color),
        ("order", .num l.order)]

def Message.toJson (m : Message) : Json :=
  .obj ([("id", .str m.id), ("fromLifelineId", .str m.fromLifelineId),
         ("toLifelineId", .str m.toLifelineId), ("label", .str m.label)]
    ++ (match m.description with
        | some d => [("description", Json.str d)]
        | none => [])
    ++ [("type", m.type.toJson), ("order", .num m.order)])

def Activation.toJson (a : Activation) : Json :=
  .obj [("id", .str a.id), ("lifelineId", .str a.lifelineId),
        ("startMessageOrder", .num a.startMessageOrder),
        ("endMessageOrder", .num a.endMessageOrder)]

def ActivationBlockData.toJson (d : ActivationBlockData) : Json :=
  .obj ([("isActive", .bool d.isActive)]
    ++ (match d.text with
        | some t => [("text", Json.str t)]
        | none => []))

def Group.toJson (g : Group) : Json :=
  .obj [("id", .str g.id), ("name", .str g.name), ("color", .str g.color),
        ("lifelineIds", .arr (g.lifelineIds.map Json.str))]

/-- `convertActivatedBlocksMapToSerializable`: keep only the entries whose
data has `isActive`; the JS `Map` is modelled as an insertion-ordered list
of key/data pairs. -/
def convertActivatedBlocksMapToSerializable
    (activatedBlocks : List (String × ActivationBlockData)) :
    List String × List (String × ActivationBlockData) :=
  activatedBlocks.foldl
    (fun acc kv => if kv.2.isActive then (acc.1 ++ [kv.1], acc.2 ++ [kv]) else acc)
    ([], [])

/-- The `_documentation` section embedded in every serialized file. -/
def bumlDocumentation : Json :=
  .obj [
    ("description", .str ("This is a .buml (Builder UML) file representing a sequence diagram. "
      ++ "It describes the interaction between different actors/components (lifelines) "
      ++ "through messages exchanged over time.")),
    ("structure", .obj [
      ("lifelines", .str ("Array of actors/components in the diagram. Each lifeline has: "
        ++ "id (unique identifier), name (display label), color (hex color for visual styling), "
        ++ "and order (horizontal position from left to right, 0-indexed).")),
      ("messages", .str ("Array of arrows/communications between lifelines. Each message has: "
        ++ "id (unique identifier), fromLifelineId (source actor), toLifelineId (destination actor), "
        ++ "label (method/action name), description (optional details), "
        ++ "type (\"sync\" for solid arrow requests, \"return\" for dashed arrow responses), "
        ++ "and order (vertical position representing time sequence, 0-indexed).")),
      ("activations", .str
        "Array of activation periods on lifelines (currently managed separately via activatedBlocks)."),
      ("activatedBlocks", .str ("Array of strings representing active processing periods on lifelines. "
        ++ "Format: \"lifelineId-startMessageOrder-endMessageOrder\". "
        ++ "Example: \"user-0-2\" means the user lifeline is active from message 0 to message 2. "
        ++ "These show when a lifeline is actively processing between two consecutive messages.")),
      ("activatedBlocksData", .str ("Object mapping block keys to their data including isActive status and optional text label. "
        ++ "The text property allows adding descriptive text to display on active blocks.")),
      ("groups", .str ("Array of groups that visually group adjacent lifelines together. Each group has: "
        ++ "id (unique identifier), name (display label), color (background color for the group box), "
        ++ "and lifelineIds (array of lifeline IDs that belong to this group)."))]),
    ("usage", .str ("To recreate this diagram: 1) Create lifelines in order, "
      ++ "2) Draw messages between them following the order sequence, "
      ++ "3) Activate blocks between message pairs as specified, "
      ++ "4) Add text labels to activated blocks using activatedBlocksData, "
      ++ "5) Create groups to visually organize related lifelines. "
      ++ "The visual layout flows left-to-right for lifelines and top-to-bottom for time/messages."))]

/-- `serializeToBuml(state, activatedBlocks, name)` as the JSON document it
stringifies.  `now` is the value of `new Date().toISOString()` read when the
function runs; `JSON.stringify` drops the `name` key when the argument is
absent. -/
def serializeToBuml (state : SequenceDiagramState)
    (activatedBlocks : List (String × ActivationBlockData))
    (name : Option String) (now : String) : Json :=
  let conv := convertActivatedBlocksMapToSerializable activatedBlocks
  .obj [
    ("version", .str BUML_VERSION),
    ("_documentation", bumlDocumentation),
    ("diagram", .obj [
      ("lifelines", .arr (state.lifelines.map Lifeline.toJson)),
      ("messages", .arr (state.messages.map Message.toJson)),
      ("activations", .arr (state.activations.map Activation.toJson)),
      ("activatedBlocks", .arr (conv.1.map Json.str)),
      ("activatedBlocksData", .obj (conv.2.map (fun kv => (kv.1, kv.2.toJson)))),
      ("groups", .arr (state.groups.map Group.toJson))]),
    ("metadata", .obj ([("createdAt", .str now), ("updatedAt", .str now)]
      ++ (match name with
          | some n => [("name", Json.str n)]
          | none => [])))]

/-! ### Decoders

The TypeScript source casts the parsed JSON to the entity types instead of
decoding it; these decoders make that reading explicit so that round-trip
equality can be stated field by field. -/

def Json.asStr : Json → Option String
  | .str s => some s
  | _ => none

def Json.asNat : Json → Option Nat
  | .num n => if n < 0 then none else some n.toNat
  | _ => none

def MessageType.fromJson (j : Json) : Option MessageType :=
  match j with
  | .str "sync" => some .sync
  | .str "return" => some .ret
  | _ => none

def Lifeline.fromJson (j : Json) : Option Lifeline := do
  let id ← (jsGetD j "id").asStr
  let name ← (jsGetD j "name").asStr
  let color ← (jsGetD j "color").asStr
  let order ← (jsGetD j "order").asNat
  pure { id := id, name := name, color := color, order := order }

def Message.fromJson (j : Json) : Option Message := do
  let id ← (jsGetD j "id").asStr
  let fromLifelineId ← (jsGetD j "fromLifelineId").asStr
  let toLifelineId ← (jsGetD j "toLifelineId").asStr
  let label ← (jsGetD j "label").asStr
  let description := (jsGetD j "description").asStr
  let type ← MessageType.fromJson (jsGetD j "type")
  let order ← (jsGetD j "order").asNat
  pure { id := id, fromLifelineId := fromLifelineId, toLifelineId := toLifelineId,
         label := label, description := description, type := type, order := order }

def Group.fromJson (j : Json) : Option Group := do
  let id ← (jsGetD j "id").asStr
  let name ← (jsGetD j "name").asStr
  let color ← (jsGetD j "color").asStr
  match jsGetD j "lifelineIds" with
  | .arr ids =>
    let ids ← ids.mapM Json.asStr
    pure { id := id, name := name, color := color, lifelineIds := ids }
  | _ => none

/-! ## Claim C1 -/

/-- Claim C1 (code bug): after every mutator the `order` values of each
collection should be exactly `{0, …, n-1}`, in particular after
`handleDeleteLifeline` removes the messages referencing the deleted
lifeline.  The code violates this: `handleDeleteLifeline` filters those
messages out but, unlike `handleDeleteMessage`, does not reindex the
survivors.  Starting from the initial Front/Back/AI state, adding sync
messages Front→Back (order 0) and Back→AI (order 1) and then deleting
Front leaves the one surviving message at order 1 (instead of 0), while the
lifelines are correctly reindexed to 0, 1; a subsequent `addMessage`
(which assigns `order = messages.length = 1`) then produces the duplicate
order multiset `[1, 1]`. -/
theorem c1_deleteLifeline_leaves_message_order_gap :
    ((applyOps initialState c1Ops).messages.map (·.order)) = [1] ∧
    ((applyOps initialState c1Ops).lifelines.map (·.order)) = [0, 1] ∧
    ((applyOps initialState
        (c1Ops ++ [Op.addMessage "lifeline-2" "lifeline-3" MessageType.sync])).messages.map
      (·.order)) = [1, 1] := by
  refine ⟨by decide, by decide, by decide⟩

/-! ## Claim C2 -/

/-- Claim C2 (confirmed): on the nested-call example
`[Sync A→B #0, Sync B→C #1, Return C→B #2, Return B→A #3]` the
stack-inference engine emits exactly the two intervals `(C,1,2)` and
`(B,0,3)` and no interval for actor `A`.  The inner call is closed first in
time: the `C` interval ends at message order 2, before the `B` interval
ends at order 3 (the engine processes per-lifeline, so the output list
happens to list the `B` interval first). -/
theorem c2_nested_call_intervals :
    activations c2Messages =
      [ { id := "activation-B-0-3", lifelineId := "B",
          startMessageOrder := 0, endMessageOrder := 3 },
        { id := "activation-C-1-2", lifelineId := "C",
          startMessageOrder := 1, endMessageOrder := 2 } ] ∧
    (activations c2Messages).all (fun a => a.lifelineId != "A") = true := by
  refine ⟨by decide, by decide⟩

/-! ## Claim C5 -/

/-- Claim C5 counterexample: on `[Sync A→B #0, Sync B→B #1]` the claim says
the engine yields one open interval for each of the two actors (for `A` one
ending at order 0).  It does not: the engine only opens an activation when
an actor RECEIVES a sync message, so `A` (which only sends) gets zero
intervals while `B` gets two. -/
theorem c5_counterexample_not_one_interval_each :
    ¬ ((activations c5Messages).countP (fun a => a.lifelineId == "A") = 1 ∧
       (activations c5Messages).countP (fun a => a.lifelineId == "B") = 1) := by
  decide

/-- Claim C5 amended: on `[Sync A→B #0, Sync B→B #1]` (no returns), `A`
yields no intervals (it never receives a sync request) and `B` yields two
open intervals `(B,0,1)` and `(B,1,1)`, each ending at order 1, the order
of `B`'s last touching message; the computation is total and no emitted
interval has its end order below its start order. -/
theorem c5_open_intervals_amended :
    activations c5Messages =
      [ { id := "activation-B-0-1", lifelineId := "B",
          startMessageOrder := 0, endMessageOrder := 1 },
        { id := "activation-B-1-1", lifelineId := "B",
          startMessageOrder := 1, endMessageOrder := 1 } ] ∧
    (activations c5Messages).all (fun a => a.lifelineId != "A") = true ∧
    (activations c5Messages).all
      (fun a => a.startMessageOrder ≤ a.endMessageOrder) = true := by
  refine ⟨by decide, by decide, by decide⟩

/-! ## Claim C4 -/

lemma foldl_addLifeline (ls : List Json) :
    ∀ b : BumlBuilder, ls.foldl BumlBuilder.addLifeline b
        = { b with lifelines := b.lifelines ++ ls } := by
  induction ls with
  | nil => intro b; simp
  | cons x xs ih => intro b; simp [BumlBuilder.addLifeline, ih]

lemma foldl_addMessage (ms : List Json) :
    ∀ b : BumlBuilder, ms.foldl BumlBuilder.addMessage b
        = { b with messages := b.messages ++ ms } := by
  induction ms with
  | nil => intro b; simp
  | cons x xs ih => intro b; simp [BumlBuilder.addMessage, ih]

lemma foldl_addActivation (as : List Json) :
    ∀ b : BumlBuilder, as.foldl BumlBuilder.addActivation b
        = { b with activations := b.activations ++ as } := by
  induction as with
  | nil => intro b; simp
  | cons x xs ih => intro b; simp [BumlBuilder.addActivation, ih]

lemma foldl_addGroup (gs : List Json) :
    ∀ b : BumlBuilder, gs.foldl BumlBuilder.addGroup b
        = { b with groups := b.groups ++ gs } := by
  induction gs with
  | nil => intro b; simp
  | cons x xs ih => intro b; simp [BumlBuilder.addGroup, ih]

lemma lifeline_fromJson_toJson (l : Lifeline) : Lifeline.fromJson l.toJson = some l := by
  cases l with
  | mk id name color order =>
    simp [Lifeline.toJson, Lifeline.fromJson, jsGetD, lookupKey, Json.asStr, Json.asNat,
      not_lt.mpr (Int.natCast_nonneg order)]

lemma message_fromJson_toJson (m : Message) : Message.fromJson m.toJson = some m := by
  cases m with
  | mk id fromId toId label description type order =>
    cases description <;> cases type <;>
      simp [Message.toJson, Message.fromJson, MessageType.toJson, MessageType.fromJson,
        jsGetD, lookupKey, Json.asStr, Json.asNat, not_lt.mpr (Int.natCast_nonneg order)]

lemma mapM_loop_asStr (ids : List String) :
    ∀ acc : List String,
      List.mapM.loop Json.asStr (ids.map Json.str) acc = some (acc.reverse ++ ids) := by
  induction ids with
  | nil => intro acc; simp [List.mapM.loop]
  | cons x xs ih => intro acc; simp [List.mapM.loop, Json.asStr, ih]

lemma mapM_asStr_map_str (ids : List String) :
    (ids.map Json.str).mapM Json.asStr = some ids := by
  unfold List.mapM
  simpa using mapM_loop_asStr ids []

lemma group_fromJson_toJson (g : Group) : Group.fromJson g.toJson = some g := by
  cases g with
  | mk id name color lifelineIds =>
    simp [Group.toJson, Group.fromJson, jsGetD, lookupKey, Json.asStr, List.mapM,
      mapM_loop_asStr]

/-- Claim C4 (confirmed): serializing any in-memory state and activated-blocks
map, parsing the document back, and rebuilding through the director
reproduces the lifelines, messages and groups element for element (the
payloads re-read from the file are exactly the serialized entities, and
decoding them yields the original records with the same ids, fields and
orders). -/
theorem c4_serialize_parse_build_roundtrip :
    ∀ (state : SequenceDiagramState)
      (blocks : List (String × ActivationBlockData))
      (name : Option String) (saveNow loadNow : String),
      ∃ d : BumlDiagram,
        buildDiagramFromBuml loadNow (some (serializeToBuml state blocks name saveNow))
          = .ok d ∧
        d.state.lifelines = state.lifelines.map Lifeline.toJson ∧
        d.state.messages = state.messages.map Message.toJson ∧
        d.state.groups = state.groups.map Group.toJson ∧
        d.state.lifelines.map Lifeline.fromJson = state.lifelines.map some ∧
        d.state.messages.map Message.fromJson = state.messages.map some ∧
        d.state.groups.map Group.fromJson = state.groups.map some := by
  intro state blocks name saveNow loadNow
  refine ⟨{ state := { lifelines := state.lifelines.map Lifeline.toJson,
                       messages := state.messages.map Message.toJson,
                       activations := state.activations.map Activation.toJson,
                       groups := state.groups.map Group.toJson },
            activatedBlocks := (convertActivatedBlocksMapToSerializable blocks).1.map Json.str,
            activatedBlocksData := Json.obj
              ((convertActivatedBlocksMapToSerializable blocks).2.map
                (fun kv => (kv.1, kv.2.toJson))),
            name := match name with
                    | some n => Json.str n
                    | none => Json.undefined },
          ?_, rfl, rfl, rfl, ?_, ?_, ?_⟩
  · cases name <;>
      · unfold buildDiagramFromBuml parseBumlFile parseBumlVal serializeToBuml
          constructFromFile
        simp [jsMember, jsGetD, lookupKey, truthy, Json.isArr, isObjectType,
          BUML_VERSION, foldl_addLifeline, foldl_addMessage, foldl_addActivation,
          foldl_addGroup, BumlBuilder.reset, BumlBuilder.setActivatedBlocks,
          BumlBuilder.setActivatedBlocksData, BumlBuilder.build, Except.map]
  · simp [List.map_map, Function.comp_def, lifeline_fromJson_toJson]
  · simp [List.map_map, Function.comp_def, message_fromJson_toJson]
  · simp [List.map_map, Function.comp_def, group_fromJson_toJson]

/-! ## Claim C6 -/

lemma foldl_stepActivation_lifelineId (lid : String) (msgs : List Message) :
    ∀ (st : List Nat × List Activation),
      (∀ x ∈ st.2, x.lifelineId = lid) →
      ∀ a ∈ (msgs.foldl (stepActivation lid) st).2, a.lifelineId = lid := by
  induction msgs with
  | nil => intro st hst a ha; exact hst a ha
  | cons m ms ih =>
    intro st hst a ha
    simp only [List.foldl_cons] at ha
    refine ih (stepActivation lid st m) ?_ a ha
    intro x hx
    unfold stepActivation at hx
    split at hx
    · exact hst x hx
    · split at hx
      · split at hx
        · exact hst x hx
        · simp only [List.mem_append, List.mem_singleton] at hx
          rcases hx with hx | hx
          · exact hst x hx
          · rw [hx]
      · exact hst x hx

lemma mem_lifelineActivations (msgs : List Message) (lid : String) :
    ∀ a ∈ lifelineActivations msgs lid, a.lifelineId = lid := by
  intro a ha
  unfold lifelineActivations at ha
  simp only [List.mem_append] at ha
  rcases ha with ha | ha
  · exact foldl_stepActivation_lifelineId lid msgs ([], []) (by simp) a ha
  · simp only [List.mem_map] at ha
    obtain ⟨s, _, rfl⟩ := ha
    rfl

lemma mem_foldl_append {α β : Type} (f : β → List α) :
    ∀ (ids : List β) (init : List α) (a : α),
      a ∈ ids.foldl (fun acc i => acc ++ f i) init ↔ a ∈ init ∨ ∃ i ∈ ids, a ∈ f i := by
  intro ids
  induction ids with
  | nil => simp
  | cons i is ih =>
    intro init a
    simp only [List.foldl_cons, ih, List.mem_append, List.mem_cons, or_assoc]
    constructor
    · rintro (h | h | ⟨j, hj, hja⟩)
      · exact Or.inl h
      · exact Or.inr ⟨i, Or.inl rfl, h⟩
      · exact Or.inr ⟨j, Or.inr hj, hja⟩
    · rintro (h | ⟨j, (rfl | hj), hja⟩)
      · exact Or.inl h
      · exact Or.inr (Or.inl hja)
      · exact Or.inr (Or.inr ⟨j, hj, hja⟩)

lemma mem_activations_touched (msgs : List Message) :
    ∀ a ∈ activations msgs, a.lifelineId ∈ touchedLifelineIds msgs := by
  intro a ha
  unfold activations at ha
  rw [mem_foldl_append (lifelineActivations msgs) (touchedLifelineIds msgs) [] a] at ha
  rcases ha with ha | ⟨lid, hlid, ha⟩
  · simp at ha
  · rw [mem_lifelineActivations msgs lid a ha]
    exact hlid

/-- Claim C6 (confirmed): a `Return` message sent by an actor whose pending
stack is empty leaves the scan state unchanged — no interval (not even a
zero-length one) is emitted and nothing fails; and an actor touched by no
message gets no interval at all from the engine. -/
theorem c6_return_empty_stack_and_untouched_actor :
    (∀ (lifelineId : String) (emitted : List Activation) (msg : Message),
      msg.type = MessageType.ret →
      stepActivation lifelineId ([], emitted) msg = ([], emitted)) ∧
    (∀ (messages : List Message) (actorId : String),
      (touchedLifelineIds messages).contains actorId = false →
      ∀ a ∈ activations messages, a.lifelineId ≠ actorId) := by
  constructor
  · intro lifelineId emitted msg hret
    unfold stepActivation
    simp [hret]
    exact fun _ => rfl
  · intro messages actorId hc a ha hEq
    have hmem : actorId ∈ touchedLifelineIds messages :=
      hEq ▸ mem_activations_touched messages a ha
    simp only [List.contains, List.elem_eq_mem, decide_eq_false_iff_not] at hc
    exact hc hmem

/-- Witness for claim C6: a concrete return message with an empty stack is a
no-op, and the actor `D`, untouched by the C2 example messages, receives no
interval. -/
theorem c6_return_empty_stack_witness :
    stepActivation "B" ([], [])
      { id := "m9", fromLifelineId := "B", toLifelineId := "A", label := "response",
        description := none, type := MessageType.ret, order := 5 } = ([], []) ∧
    (activations c2Messages).all (fun a => a.lifelineId != "D") = true := by
  constructor
  · exact c6_return_empty_stack_and_untouched_actor.1 "B" [] _ rfl
  · refine List.all_eq_true.mpr (fun a ha => ?_)
    have hne := c6_return_empty_stack_and_untouched_actor.2 c2Messages "D" (by decide) a ha
    simpa using hne

/-! ## Claim C7 -/

lemma foldl_min_le_init (as : List Nat) (a : Nat) : as.foldl min a ≤ a := by
  induction as generalizing a with
  | nil => simp
  | cons x xs ih => exact le_trans (ih (min a x)) (min_le_left a x)

lemma init_le_foldl_max (as : List Nat) (a : Nat) : a ≤ as.foldl max a := by
  induction as generalizing a with
  | nil => simp
  | cons x xs ih => exact le_trans (le_max_left a x) (ih (max a x))

/-- Claim C7 counterexample: the claim asserts non-negative width and height
for every non-null input, but `height = canvasHeight - y - padding` with
`y = 46`, so a canvas height below 66 (here 0) produces a negative
height. -/
theorem c7_counterexample_negative_height :
    ∃ b : GroupBounds,
      calculateGroupBounds
        { id := "g", name := "G", color := "#DBEAFE", lifelineIds := ["a"] }
        [{ id := "a", name := "A", color := "#3B82F6", order := 0 }] 0 = some b ∧
      b.height < 0 := by
  refine ⟨{ x := 80, y := 46, width := 160, height := -66 }, ?_, by norm_num⟩
  norm_num [calculateGroupBounds, List.min?, List.max?, LIFELINE_START_X,
    LIFELINE_START_Y, LIFELINE_SPACING, LIFELINE_HEADER_WIDTH, GROUP_HEADER_HEIGHT,
    GROUP_PADDING]

/-- Claim C7 amended: `calculateGroupBounds` returns `null` iff no group
member id resolves to a lifeline; otherwise, with `mn`/`mx` the
minimum/maximum resolved order, it returns exactly
`x = startX + mn*spacing - padding`,
`y = startY - groupHeaderHeight - padding/2`,
`width = (mx-mn+1)*spacing - spacing + headerWidth + 2*padding` and
`height = canvasHeight - y - padding`.  The width is always non-negative;
the height is non-negative whenever `canvasHeight ≥ 66` (with the
repository constants `y = 46` and `padding = 20`), which holds for every
canvas height the application computes (they are at least 600). -/
theorem c7_group_bounds_amended :
    ∀ (group : Group) (lifelines : List Lifeline) (h : ℚ),
      (calculateGroupBounds group lifelines h = none ↔
        ∀ l ∈ lifelines, group.lifelineIds.contains l.id = false) ∧
      (∀ b, calculateGroupBounds group lifelines h = some b →
        ∃ mn mx : Nat,
          ((lifelines.filter (fun l => group.lifelineIds.contains l.id)).map
            (·.order)).min? = some mn ∧
          ((lifelines.filter (fun l => group.lifelineIds.contains l.id)).map
            (·.order)).max? = some mx ∧
          b.x = LIFELINE_START_X + mn * LIFELINE_SPACING - GROUP_PADDING ∧
          b.y = LIFELINE_START_Y - GROUP_HEADER_HEIGHT - GROUP_PADDING / 2 ∧
          b.width = ((mx : ℚ) - mn + 1) * LIFELINE_SPACING - LIFELINE_SPACING
            + LIFELINE_HEADER_WIDTH + GROUP_PADDING * 2 ∧
          b.height = h - b.y - GROUP_PADDING ∧
          0 ≤ b.width ∧
          (66 ≤ h → 0 ≤ b.height)) := by
  intro group lifelines h
  constructor
  · rcases hf : lifelines.filter (fun l => group.lifelineIds.contains l.id)
      with _ | ⟨l0, ls0⟩
    · simp only [calculateGroupBounds, hf, List.isEmpty_nil, if_pos]
      simp only [List.filter_eq_nil_iff] at hf
      simpa using hf
    · simp only [calculateGroupBounds, hf, List.isEmpty_cons, if_neg, Bool.false_eq_true,
        not_false_eq_true]
      constructor
      · intro hc
        exact absurd hc (by simp)
      · intro hall
        have hl0 : l0 ∈ lifelines.filter (fun l => group.lifelineIds.contains l.id) := by
          rw [hf]; exact List.mem_cons_self l0 ls0
        rw [List.mem_filter] at hl0
        have := hall l0 hl0.1
        rw [this] at hl0
        exact absurd hl0.2 (by simp)
  · intro b hb
    rcases hf : lifelines.filter (fun l => group.lifelineIds.contains l.id)
      with _ | ⟨l0, ls0⟩
    · rw [calculateGroupBounds, hf] at hb
      simp at hb
    · rw [calculateGroupBounds, hf] at hb
      simp only [List.isEmpty_cons, Bool.false_eq_true, if_neg, not_false_eq_true,
        Option.some_inj] at hb
      have hmin : (((l0 :: ls0).map (·.order)).min?).getD 0
          = (ls0.map (·.order)).foldl min l0.order := rfl
      have hmax : (((l0 :: ls0).map (·.order)).max?).getD 0
          = (ls0.map (·.order)).foldl max l0.order := rfl
      refine ⟨(ls0.map (·.order)).foldl min l0.order,
              (ls0.map (·.order)).foldl max l0.order,
              by rw [hf]; rfl, by rw [hf]; rfl, ?_, ?_, ?_, ?_, ?_, ?_⟩
      · rw [← hb, hmin]
      · rw [← hb]
      · rw [← hb, hmin, hmax]
      · rw [← hb]
      · rw [← hb, hmin, hmax]
        have hle : (ls0.map (·.order)).foldl min l0.order ≤
            (ls0.map (·.order)).foldl max l0.order :=
          le_trans (foldl_min_le_init _ _) (init_le_foldl_max _ _)
        have hq : (((ls0.map (·.order)).foldl min l0.order : Nat) : ℚ) ≤
            (((ls0.map (·.order)).foldl max l0.order : Nat) : ℚ) := Nat.cast_le.mpr hle
        simp only [LIFELINE_SPACING, LIFELINE_HEADER_WIDTH, GROUP_PADDING]
        linarith
      · intro h66
        rw [← hb]
        simp only [LIFELINE_START_Y, GROUP_HEADER_HEIGHT, GROUP_PADDING]
        linarith

/-- Witness for claim C7's amended theorem at a concrete single-lifeline
group and canvas height 600. -/
theorem c7_group_bounds_witness :
    ∃ b : GroupBounds,
      calculateGroupBounds
        { id := "g", name := "G", color := "#DBEAFE", lifelineIds := ["a"] }
        [{ id := "a", name := "A", color := "#3B82F6", order := 0 }] 600 = some b ∧
      0 ≤ b.width ∧ 0 ≤ b.height := by
  have heval : calculateGroupBounds
      { id := "g", name := "G", color := "#DBEAFE", lifelineIds := ["a"] }
      [{ id := "a", name := "A", color := "#3B82F6", order := 0 }] 600
      = some { x := 80, y := 46, width := 160, height := 534 } := by
    norm_num [calculateGroupBounds, List.min?, List.max?, LIFELINE_START_X,
      LIFELINE_START_Y, LIFELINE_SPACING, LIFELINE_HEADER_WIDTH, GROUP_HEADER_HEIGHT,
      GROUP_PADDING]
  have hmain := (c7_group_bounds_amended
    { id := "g", name := "G", color := "#DBEAFE", lifelineIds := ["a"] }
    [{ id := "a", name := "A", color := "#3B82F6", order := 0 }] 600).2
    { x := 80, y := 46, width := 160, height := 534 } heval
  obtain ⟨mn, mx, _, _, _, _, _, _, hw, hh⟩ := hmain
  exact ⟨{ x := 80, y := 46, width := 160, height := 534 }, heval, hw, hh (by norm_num)⟩

/-! ## Claim C8 -/

/-- Claim C8 counterexample: `serializeToBuml` reads the ambient clock
(`new Date().toISOString()`) for `metadata.createdAt`/`updatedAt`, so two
invocations with identical explicit arguments but different clock readings
return different documents. -/
theorem c8_counterexample_clock_dependence :
    serializeToBuml { lifelines := [], messages := [], activations := [], groups := [] }
        [] none "2024-01-01T00:00:00.000Z"
      ≠ serializeToBuml { lifelines := [], messages := [], activations := [], groups := [] }
        [] none "2024-01-02T00:00:00.000Z" := by
  intro h
  have h2 := congrArg (fun d => jsGetD (jsGetD d "metadata") "createdAt") h
  simp [serializeToBuml, jsGetD, lookupKey] at h2

/-- Claim C8 amended: apart from the clock-dependent `metadata` section,
`serializeToBuml` is a deterministic function of its explicit arguments:
for any two clock readings the `version`, `_documentation` and `diagram`
sections of the produced documents coincide. -/
theorem c8_serialize_deterministic_modulo_metadata :
    ∀ (state : SequenceDiagramState)
      (activatedBlocks : List (String × ActivationBlockData))
      (name : Option String) (now₁ now₂ : String),
      jsGetD (serializeToBuml state activatedBlocks name now₁) "version"
        = jsGetD (serializeToBuml state activatedBlocks name now₂) "version" ∧
      jsGetD (serializeToBuml state activatedBlocks name now₁) "_documentation"
        = jsGetD (serializeToBuml state activatedBlocks name now₂) "_documentation" ∧
      jsGetD (serializeToBuml state activatedBlocks name now₁) "diagram"
        = jsGetD (serializeToBuml state activatedBlocks name now₂) "diagram" := by
  intro state activatedBlocks name now₁ now₂
  refine ⟨?_, ?_, ?_⟩ <;> simp [serializeToBuml, jsGetD, lookupKey]

/-! ## Claim C3 -/

def isOkB {ε : Type} {α : Type} : Except ε α → Bool
  | .ok _ => true
  | .error _ => false

def isMalformedError {α : Type} : Except String α → Bool
  | .error s => s == "Invalid .buml file: malformed JSON"
  | .ok _ => false

/-- The acceptance condition of the amended claim C3, written from the
amended claim's words (a comparison definition, not a source translation):
parsing succeeds exactly when the text is valid JSON, the document is not
`null`, `version` is a non-empty string, `diagram` is truthy and both
`diagram.lifelines` and `diagram.messages` are arrays. -/
def parseAcceptsSpec (content : Option Json) : Bool :=
  match content with
  | none => false
  | some Json.null => false
  | some parsed =>
    (match jsGetD parsed "version" with
     | .str s => s != ""
     | _ => false)
    && truthy (jsGetD parsed "diagram")
    && (jsGetD (jsGetD parsed "diagram") "lifelines").isArr
    && (jsGetD (jsGetD parsed "diagram") "messages").isArr

lemma jsMember_ok {j : Json} {k : String} {v : Json} (h : jsMember j k = .ok v) :
    v = jsGetD j k := by
  cases j <;> simp [jsMember] at h <;> exact h.symm

lemma parseBumlVal_not_malformed (now : String) (j : Json) :
    isMalformedError (parseBumlVal now j) = false := by
  unfold parseBumlVal
  cases j <;>
    · simp only [jsMember]
      repeat' split
      all_goals simp [isMalformedError]

lemma parseBumlVal_isOk (now : String) (j : Json) :
    isOkB (parseBumlVal now j) = parseAcceptsSpec (some j) := by
  unfold parseBumlVal parseAcceptsSpec
  cases j <;>
    · simp only [jsMember]
      repeat' split
      all_goals simp_all [isOkB, jsGetD, truthy, Json.isArr]

lemma parseBumlVal_ok_inv (now : String) (j : Json) (r : BumlFileFormat)
    (h : parseBumlVal now j = .ok r) :
    (jsGetD (jsGetD j "diagram") "groups" = .undefined → r.diagram.groups = []) ∧
    (jsGetD (jsGetD j "diagram") "activations" = .undefined → r.diagram.activations = []) ∧
    (jsGetD (jsGetD j "diagram") "activatedBlocks" = .undefined →
      r.diagram.activatedBlocks = []) ∧
    (jsGetD (jsGetD j "diagram") "activatedBlocksData" = .undefined →
      r.diagram.activatedBlocksData = Json.obj []) ∧
    (jsGetD j "metadata" = .undefined →
      r.metadata = Json.obj [("createdAt", .str now), ("updatedAt", .str now)]) := by
  unfold parseBumlVal at h
  split at h
  · exact absurd h (by simp)
  next version hv =>
    split at h
    next vs =>
      split at h
      · exact absurd h (by simp)
      next hvs =>
        split at h
        · exact absurd h (by simp)
        next diagram hd =>
          split at h
          · exact absurd h (by simp)
          next ht =>
            split at h
            next ls hl =>
              split at h
              next ms hm =>
                have hdg : diagram = jsGetD j "diagram" := jsMember_ok hd
                rw [Except.ok.injEq] at h
                subst h
                rw [← hdg]
                refine ⟨fun hg => ?_, fun ha => ?_, fun hb => ?_, fun habd => ?_,
                  fun hmd => ?_⟩
                · simp [hg]
                · simp [ha]
                · simp [hb]
                · simp [habd, truthy, isObjectType]
                · simp [hmd, truthy]
              next hm => exact absurd h (by simp)
            next hl => exact absurd h (by simp)
    next hvstr => exact absurd h (by simp)

/-- Claim C3 counterexample: the claim says parsing fails only for malformed
JSON, an absent `version`, or a missing `diagram` / non-array
`lifelines`/`messages`, and succeeds in every other case.  This document has
a present `version` (the empty string) and a well-formed `diagram`, yet the
source rejects it (`!parsed.version` is true for the falsy empty string). -/
theorem c3_counterexample_empty_version_rejected :
    parseBumlFile "t0" (some (Json.obj
        [("version", .str ""),
         ("diagram", Json.obj [("lifelines", .arr []), ("messages", .arr [])])]))
      = .error "Invalid .buml file: missing or invalid version" := rfl

/-- Claim C3 amended: `parseBumlFile` fails with the distinct
malformed-JSON error exactly on invalid JSON text; on valid JSON it
succeeds iff the document is not `null`, its `version` is a non-empty
string (absent, empty-string, and non-string versions are all rejected),
`diagram` is truthy and `diagram.lifelines`/`diagram.messages` are arrays;
on success every absent optional diagram section (`activations`,
`activatedBlocks`, `activatedBlocksData`, `groups`) is replaced by an
empty array/object — in particular a document with no `groups` key yields
zero groups — while an absent `metadata` section is defaulted to a fresh
`{createdAt, updatedAt}` object built from the current clock reading, not
to an empty object. -/
theorem c3_parse_characterization_amended :
    ∀ (now : String) (j : Json),
      parseBumlFile now none = .error "Invalid .buml file: malformed JSON" ∧
      isMalformedError (parseBumlVal now j) = false ∧
      isOkB (parseBumlVal now j) = parseAcceptsSpec (some j) ∧
      (∀ r, parseBumlVal now j = .ok r →
        (jsGetD (jsGetD j "diagram") "groups" = .undefined → r.diagram.groups = []) ∧
        (jsGetD (jsGetD j "diagram") "activations" = .undefined →
          r.diagram.activations = []) ∧
        (jsGetD (jsGetD j "diagram") "activatedBlocks" = .undefined →
          r.diagram.activatedBlocks = []) ∧
        (jsGetD (jsGetD j "diagram") "activatedBlocksData" = .undefined →
          r.diagram.activatedBlocksData = Json.obj []) ∧
        (jsGetD j "metadata" = .undefined →
          r.metadata = Json.obj [("createdAt", .str now), ("updatedAt", .str now)])) :=
  fun now j => ⟨rfl, parseBumlVal_not_malformed now j, parseBumlVal_isOk now j,
    fun r h => parseBumlVal_ok_inv now j r h⟩

/-- A pre-group-feature document: no `groups`, `activations`,
`activatedBlocks`, `activatedBlocksData` or `metadata` keys. -/
def c3NoGroupsDoc : Json :=
  .obj [("version", .str "1.0"),
        ("diagram", .obj [("lifelines", .arr []), ("messages", .arr [])])]

/-- Witness for claim C3: the no-groups document (which also lacks
`metadata`) parses successfully, yields zero groups, and gets the fresh
`{createdAt, updatedAt}` metadata default. -/
theorem c3_parse_characterization_witness :
    parseBumlVal "t0" c3NoGroupsDoc = .ok
      { version := "1.0",
        diagram := { lifelines := [], messages := [], activations := [],
                     activatedBlocks := [], activatedBlocksData := Json.obj [],
                     groups := [] },
        metadata := Json.obj [("createdAt", .str "t0"), ("updatedAt", .str "t0")] } ∧
    ({ version := "1.0",
       diagram := { lifelines := [], messages := [], activations := [],
                    activatedBlocks := [], activatedBlocksData := Json.obj [],
                    groups := [] },
       metadata := Json.obj [("createdAt", .str "t0"), ("updatedAt", .str "t0")]
       : BumlFileFormat }).diagram.groups = [] ∧
    ({ version := "1.0",
       diagram := { lifelines := [], messages := [], activations := [],
                    activatedBlocks := [], activatedBlocksData := Json.obj [],
                    groups := [] },
       metadata := Json.obj [("createdAt", .str "t0"), ("updatedAt", .str "t0")]
       : BumlFileFormat }).metadata
      = Json.obj [("createdAt", .str "t0"), ("updatedAt", .str "t0")] :=
  ⟨rfl,
    ((c3_parse_characterization_amended "t0" c3NoGroupsDoc).2.2.2 _ rfl).1 rfl,
    ((c3_parse_characterization_amended "t0" c3NoGroupsDoc).2.2.2 _ rfl).2.2.2.2 rfl⟩

/-! ## Claim C10 -/

lemma convert_foldl_acc (m : List (String × ActivationBlockData)) :
    ∀ acc : List String × List (String × ActivationBlockData),
      m.foldl (fun acc kv => if kv.2.isActive then (acc.1 ++ [kv.1], acc.2 ++ [kv]) else acc)
          acc
        = (acc.1 ++ (m.filter (fun kv => kv.2.isActive)).map Prod.fst,
           acc.2 ++ m.filter (fun kv => kv.2.isActive)) := by
  induction m with
  | nil => intro acc; simp
  | cons kv rest ih =>
    intro acc
    by_cases h : kv.2.isActive
    · simp [h, ih, List.filter_cons]
    · simp [h, ih, List.filter_cons]

lemma convert_eq_filter (m : List (String × ActivationBlockData)) :
    convertActivatedBlocksMapToSerializable m
      = ((m.filter (fun kv => kv.2.isActive)).map Prod.fst,
         m.filter (fun kv => kv.2.isActive)) := by
  unfold convertActivatedBlocksMapToSerializable
  simpa using convert_foldl_acc m ([], [])

lemma nodup_keys_unique_value (m : List (String × ActivationBlockData)) :
    ∀ (k : String) (a b : ActivationBlockData),
      (m.map Prod.fst).Nodup → (k, a) ∈ m → (k, b) ∈ m → a = b := by
  induction m with
  | nil => simp
  | cons kv rest ih =>
    intro k a b hnd ha hb
    simp only [List.map_cons, List.nodup_cons] at hnd
    simp only [List.mem_cons] at ha hb
    rcases ha with ha | ha <;> rcases hb with hb | hb
    · have h := ha.trans hb.symm
      exact (Prod.mk.injEq _ _ _ _ ▸ h).2
    · exfalso
      refine hnd.1 ?_
      rw [← ha]
      exact List.mem_map.mpr ⟨(k, b), hb, rfl⟩
    · exfalso
      refine hnd.1 ?_
      rw [← hb]
      exact List.mem_map.mpr ⟨(k, a), ha, rfl⟩
    · exact ih k a b hnd.2 ha hb

lemma lookupKey_eq_none_of_keys_ne (k : String) :
    ∀ fields : List (String × Json), (∀ kv ∈ fields, kv.1 ≠ k) →
      lookupKey fields k = none := by
  intro fields
  induction fields with
  | nil => intro _; rfl
  | cons kv rest ih =>
    intro hall
    unfold lookupKey
    rw [if_neg, ih (fun kv hkv => hall kv (List.mem_cons_of_mem _ hkv))]
    simp only [beq_iff_eq]
    exact hall kv (List.mem_cons_self kv rest)

lemma not_mem_active_filter_keys (blocks : List (String × ActivationBlockData))
    (k : String) (d : ActivationBlockData)
    (hnd : (blocks.map Prod.fst).Nodup) (hmem : (k, d) ∈ blocks)
    (hia : d.isActive = false) :
    ∀ kv ∈ blocks.filter (fun kv => kv.2.isActive), kv.1 ≠ k := by
  rintro ⟨k1, v⟩ hkv hk
  rw [List.mem_filter] at hkv
  subst hk
  have hvd : v = d := nodup_keys_unique_value blocks k1 v d hnd hkv.1 hmem
  rw [hvd, hia] at hkv
  exact absurd hkv.2 (by simp)

/-- Claim C10 (confirmed): `serializeToBuml` persists only the active toggle
entries — a key whose `ActivationBlockData` has `isActive = false` appears
neither in the serialized document's `diagram.activatedBlocks` array nor
among the keys of its `diagram.activatedBlocksData` object, so the entry
(and any attached text) is lost across a save/load round-trip. -/
theorem c10_inactive_blocks_not_serialized :
    ∀ (state : SequenceDiagramState) (blocks : List (String × ActivationBlockData))
      (name : Option String) (now : String) (k : String) (d : ActivationBlockData),
      (blocks.map Prod.fst).Nodup → (k, d) ∈ blocks → d.isActive = false →
      jsGetD (jsGetD (serializeToBuml state blocks name now) "diagram") "activatedBlocks"
        = Json.arr ((convertActivatedBlocksMapToSerializable blocks).1.map Json.str) ∧
      Json.str k ∉ (convertActivatedBlocksMapToSerializable blocks).1.map Json.str ∧
      jsGetD (jsGetD (serializeToBuml state blocks name now) "diagram") "activatedBlocksData"
        = Json.obj ((convertActivatedBlocksMapToSerializable blocks).2.map
            (fun kv => (kv.1, kv.2.toJson))) ∧
      lookupKey ((convertActivatedBlocksMapToSerializable blocks).2.map
          (fun kv => (kv.1, kv.2.toJson))) k = none := by
  intro state blocks name now k d hnd hmem hia
  have hkeys := not_mem_active_filter_keys blocks k d hnd hmem hia
  refine ⟨by simp [serializeToBuml, jsGetD, lookupKey], ?_,
          by simp [serializeToBuml, jsGetD, lookupKey], ?_⟩
  · intro hk
    rw [convert_eq_filter] at hk
    simp only [List.mem_map] at hk
    obtain ⟨k1, ⟨kv, hkv, hk1⟩, hstr⟩ := hk
    have : k1 = k := by simpa using hstr
    exact hkeys kv hkv (hk1.trans this)
  · refine lookupKey_eq_none_of_keys_ne k _ (fun kv hkv => ?_)
    rw [convert_eq_filter] at hkv
    simp only [List.mem_map] at hkv
    obtain ⟨kv0, hkv0, hkveq⟩ := hkv
    have : kv.1 = kv0.1 := by rw [← hkveq]
    rw [this]
    exact hkeys kv0 hkv0

/-- Witness for claim C10 at a single inactive block entry. -/
theorem c10_inactive_blocks_witness :
    jsGetD (jsGetD (serializeToBuml
        { lifelines := [], messages := [], activations := [], groups := [] }
        [("a-0-1", { isActive := false, text := some "waiting" })] none "t0") "diagram")
        "activatedBlocks"
      = Json.arr ((convertActivatedBlocksMapToSerializable
          [("a-0-1", { isActive := false, text := some "waiting" })]).1.map Json.str) ∧
    Json.str "a-0-1" ∉ (convertActivatedBlocksMapToSerializable
        [("a-0-1", { isActive := false, text := some "waiting" })]).1.map Json.str ∧
    jsGetD (jsGetD (serializeToBuml
        { lifelines := [], messages := [], activations := [], groups := [] }
        [("a-0-1", { isActive := false, text := some "waiting" })] none "t0") "diagram")
        "activatedBlocksData"
      = Json.obj ((convertActivatedBlocksMapToSerializable
          [("a-0-1", { isActive := false, text := some "waiting" })]).2.map
            (fun kv => (kv.1, kv.2.toJson))) ∧
    lookupKey ((convertActivatedBlocksMapToSerializable
        [("a-0-1", { isActive := false, text := some "waiting" })]).2.map
          (fun kv => (kv.1, kv.2.toJson))) "a-0-1" = none :=
  c10_inactive_blocks_not_serialized
    { lifelines := [], messages := [], activations := [], groups := [] }
    [("a-0-1", { isActive := false, text := some "waiting" })] none "t0" "a-0-1"
    { isActive := false, text := some "waiting" } (by decide) (by decide) rfl

/-! ## Claim C9 -/

/-- Claim C9 (confirmed): with the repository constants, a lifeline's
center X is `100 + order*180 + 60`, a message's Y is
`80 + 60 + 30 + order*60`, and the canvas extents are
`max(800, 100 + lifelineCount*180 + 100)` by
`max(600, 80 + 60 + 50 + (messageCount+1)*60 + 100)`.  All four maps are
total Lean functions of their arguments, hence pure. -/
theorem c9_geometry_formulas :
    (∀ l : Lifeline, getLifelineX l = 100 + (l.order : ℚ) * 180 + 60) ∧
    (∀ o : Nat, getMessageY o = 80 + 60 + 30 + (o : ℚ) * 60) ∧
    (∀ n : Nat, canvasWidth n = max 800 (100 + (n : ℚ) * 180 + 100)) ∧
    (∀ m : Nat, canvasHeight m = max 600 (80 + 60 + 50 + ((m : ℚ) + 1) * 60 + 100)) := by
  refine ⟨fun l => ?_, fun o => ?_, fun n => ?_, fun m => ?_⟩ <;>
    norm_num [getLifelineX, getMessageY, canvasWidth, canvasHeight, LIFELINE_START_X,
      LIFELINE_START_Y, LIFELINE_SPACING, LIFELINE_HEADER_WIDTH, LIFELINE_HEADER_HEIGHT,
      MESSAGE_SPACING]

end Buml
